import Mathlib

/-!
Verification of the relevance scoring and matching engine of the
job-auto-apply repository (src/backend/api/backend/api/jobs.py).

The Python source is shallowly embedded: machine floats become exact
rationals (with the final recency multiplier living in the reals because of
the exponential half-life decay), `Optional` fields become `Option`,
Python `set(...)` becomes an order-preserving `List.dedup` (every consumer
is set-based, so this is observationally equal), and SQL `LIKE '%x%'`
predicates become case-insensitive substring tests that are false on NULL
columns.
-/

/-- Stop-word set of jobs.py line 55. -/
def STOPWORDS : List String :=
  ["a","an","the","and","or","to","of","in","on","for","with","by","at","as",
   "is","are","be","this","that","it","from"]

/-- Helper for Python str.split(): split a character list on whitespace runs,
dropping empty words.  `acc` carries the current (reversed) word. -/
def wordsAux (acc : List Char) : List Char → List (List Char)
  | [] => if acc.isEmpty then [] else [acc.reverse]
  | c :: cs =>
    if c.isWhitespace then
      if acc.isEmpty then wordsAux [] cs else acc.reverse :: wordsAux [] cs
    else wordsAux (c :: acc) cs

/-- jobs.py lines 59-62: lowercase alphanumeric characters, keep whitespace,
collapse every other character to a space, split on whitespace and drop
stop words.  (`c.isalnum() or c.isspace()` keeps the character, lowercased;
anything else becomes a space.) -/
def tokenize (text : String) : List String :=
  let mapped := text.data.map
    (fun c => if c.isAlphanum || c.isWhitespace then c.toLower else ' ')
  ((wordsAux [] mapped).map (fun w => String.mk w)).filter
    (fun t => !(t == "") && !(STOPWORDS.contains t))

/-- Python `str.lower()`, character by character. -/
def strLower (s : String) : String := String.mk (s.data.map Char.toLower)

/-- Cardinality of `set(a) ∩ set(b)` for the jaccard of jobs.py line 68. -/
def interCard (a b : List String) : ℕ :=
  (a.dedup.filter (fun x => x ∈ b.dedup)).length

/-- Cardinality of `set(a) ∪ set(b)` for the jaccard of jobs.py line 69. -/
def unionCard (a b : List String) : ℕ :=
  (a.dedup ++ b.dedup.filter (fun x => x ∉ a.dedup)).length

/-- jobs.py lines 64-70: Jaccard similarity of the two token lists viewed as
sets; 0 when either list is empty (and, as in the source, when the union is
empty).  `set(l)` is modelled by `l.dedup`. -/
def jaccard (a b : List String) : ℚ :=
  if a = [] ∨ b = [] then 0
  else if unionCard a b = 0 then 0
  else (interCard a b : ℚ) / (unionCard a b : ℚ)

/-- jobs.py line 72. -/
def DEFAULT_DECAY_DAYS : ℚ := 30

/-- jobs.py lines 74-83: exponential half-life decay of a posting timestamp.
Time is measured in seconds (rational); `now` is the ambient
`datetime.utcnow()`; a `timedelta` of `d` days lasts `d * 86400` seconds. -/
noncomputable def time_decay (now : ℚ) (posted_at : Option ℚ)
    (half_life_days : ℚ) : ℝ :=
  match posted_at with
  | none => 1
  | some p =>
    if now - p ≤ 0 then 1
    else max 0.1 ((0.5 : ℝ) ^ (((now - p : ℚ) : ℝ) / ((half_life_days : ℝ) * 86400)))

/-- Job record as consumed by the scorer and the matching endpoint.
Modelled from the spec: the ORM `Job` model imported by jobs.py is not part
of the repository sources; the fields are the ones the spec's data-model
section lists and the scorer reads (title, description, tags, location,
remote flag, salary range, posting timestamp, plus the scoring-irrelevant
company, URL and source label). -/
structure Job where
  title : Option String
  company : Option String
  description : Option String
  location : Option String
  remote : Option Bool
  url : Option String
  source : Option String
  salary_min : Option Int
  salary_max : Option Int
  tags : Option (List String)
  posted_at : Option ℚ

/-- User preference record as consumed by the scorer.
Modelled from the spec: the ORM `UserPreferences` model imported by jobs.py
is not part of the repository sources; fields follow the spec's data model
and the scorer's attribute reads. -/
structure UserPreferences where
  keywords_include : Option (List String)
  keywords_exclude : Option (List String)
  tech_stack : Option (List String)
  job_titles : Option (List String)
  locations : Option (List String)
  remote_only : Option Bool
  min_salary : Option Int

/-- Python `set([t.lower() for t in l])`: lowercase every entry, drop
duplicates.  Every consumer is set-based, so list order is irrelevant. -/
def lowerList (l : List String) : List String :=
  (l.map strLower).dedup

/-- Python truthiness of an optional integer: `None` and `0` are falsy. -/
def truthyInt : Option Int → Bool
  | none => false
  | some n => n != 0

/-- Substring test on character lists (Python `needle in hay`,
SQL `LIKE '%needle%'`). -/
def isSubCL (needle : List Char) : List Char → Bool
  | [] => needle.isEmpty
  | c :: cs => needle.isPrefixOf (c :: cs) || isSubCL needle cs

/-- SQL `func.lower(column) LIKE '%needle.lower()%'`: false on a NULL
column, otherwise a case-insensitive substring test. -/
def likeContains (needle : String) (hay : Option String) : Bool :=
  match hay with
  | none => false
  | some h => isSubCL (strLower needle).data (strLower h).data

/-- jobs.py line 87. -/
def titleTokens (job : Job) : List String := tokenize (job.title.getD "")

/-- jobs.py line 88. -/
def descTokens (job : Job) : List String := tokenize (job.description.getD "")

/-- jobs.py line 89: tags are space-joined then tokenized; falsy (absent or
empty) tag lists give no tokens. -/
def tagsTokens (job : Job) : List String :=
  if job.tags.getD [] = [] then []
  else tokenize (String.intercalate " " (job.tags.getD []))

/-- jobs.py line 91: combined job token bag. -/
def jobTokensAll (job : Job) : List String :=
  titleTokens job ++ descTokens job ++ tagsTokens job

/-- jobs.py line 105. -/
def title_match (job : Job) (p : UserPreferences) : ℚ :=
  jaccard (titleTokens job) (lowerList (p.job_titles.getD []))

/-- jobs.py line 106. -/
def tech_match (job : Job) (p : UserPreferences) : ℚ :=
  jaccard (jobTokensAll job) (lowerList (p.tech_stack.getD []))

/-- jobs.py line 107. -/
def include_match (job : Job) (p : UserPreferences) : ℚ :=
  jaccard (jobTokensAll job) (lowerList (p.keywords_include.getD []))

/-- jobs.py line 108: `1.0 if not exclude_kw else 1.0 - min(0.9, jaccard(job_tokens, exclude_kw))`. -/
def excludePenalty (job_tokens : List String) (exclude_kw : List String) : ℚ :=
  if exclude_kw = [] then 1
  else 1 - min 0.9 (jaccard job_tokens exclude_kw)

/-- The exclusion multiplier as instantiated inside compute_relevance. -/
def exclude_penalty (job : Job) (p : UserPreferences) : ℚ :=
  excludePenalty (jobTokensAll job) (lowerList (p.keywords_exclude.getD []))

/-- jobs.py lines 111-120: remote/location bonus.  `prefs.remote_only is
True` is an identity test; `getattr(job, "remote", False)` is truthy only
for an actual True. -/
def loc_bonus (job : Job) (p : UserPreferences) : ℚ :=
  (if p.remote_only = some true then
    (if job.remote = some true then (0.1 : ℚ) else -0.2)
   else 0)
  + (if lowerList (p.locations.getD []) ≠ [] then
      (if (lowerList (p.locations.getD [])).any
          (fun l => isSubCL l.data (strLower (job.location.getD "")).data)
       then (0.1 : ℚ) else 0)
     else 0)

/-- jobs.py lines 123-128: salary bonus.  Both `prefs.min_salary` and
`job.salary_max` are tested for Python truthiness (None and 0 are falsy);
the inner branch re-tests `job.salary_max` exactly as the source does. -/
def salary_bonus (job : Job) (p : UserPreferences) : ℚ :=
  if truthyInt p.min_salary && truthyInt job.salary_max then
    (if truthyInt job.salary_max
        && decide (p.min_salary.getD 0 ≤ job.salary_max.getD 0)
     then (0.1 : ℚ) else -0.15)
  else 0

/-- jobs.py lines 133-140: weighted component sum, clamped to [0, 1.5],
then multiplied by the exclusion penalty (everything before the recency
multiplier). -/
def preRecencyScore (job : Job) (p : UserPreferences) : ℚ :=
  (max 0 (min 1.5
    (0.45 * title_match job p
      + 0.25 * tech_match job p
      + 0.20 * include_match job p
      + 0.10 * (1 + loc_bonus job p + salary_bonus job p))))
  * exclude_penalty job p

/-- Python `round(x, 2)` (modelled with round-to-nearest; no claim in scope
touches an exact half tie, where binary floats would differ anyway). -/
noncomputable def round2 (x : ℝ) : ℝ := ((round (x * 100) : ℤ) : ℝ) / 100

/-- jobs.py lines 85-143: the relevance scorer.  `now` is the ambient
`datetime.utcnow()` instant used by the recency model. -/
noncomputable def compute_relevance (now : ℚ) (job : Job)
    (prefs : Option UserPreferences) : ℝ :=
  match prefs with
  | none =>
    round2 (100 * min 1 ((0.35 : ℝ)
      * time_decay now job.posted_at DEFAULT_DECAY_DAYS))
  | some p =>
    round2 (100 * max 0 (min 1 (((preRecencyScore job p : ℚ) : ℝ)
      * time_decay now job.posted_at DEFAULT_DECAY_DAYS)))

/-- SQL `column >= threshold`: false on NULL. -/
def satGE (column : Option Int) (threshold : Int) : Bool :=
  match column with
  | none => false
  | some v => threshold ≤ v

/-- jobs.py lines 225-246: the coarse preference pre-filter of the matching
endpoint, expressed as the per-job predicate the SQL query applies.  With
no preference record every job is accepted; otherwise the OR-predicate set
built from preferred titles and included keywords (when non-empty) and the
remote / location / salary filters are applied conjunctively. -/
def prefilter (prefs : Option UserPreferences) (job : Job) : Bool :=
  match prefs with
  | none => true
  | some p =>
    let predicates :=
      (p.job_titles.getD []).map (fun t => likeContains t job.title)
      ++ (p.keywords_include.getD []).map
          (fun k => likeContains k job.description)
    (if predicates = [] then true else predicates.any id)
    && (if p.remote_only = some true then decide (job.remote = some true)
        else true)
    && (if p.locations.getD [] = [] then true
        else (p.locations.getD []).any (fun l => likeContains l job.location))
    && (if truthyInt p.min_salary then
          satGE job.salary_max (p.min_salary.getD 0)
          || satGE job.salary_min (p.min_salary.getD 0)
        else true)

/-! ## General lemmas about the embedded functions -/

lemma jaccard_eq (a b : List String) (i u : ℕ)
    (ha : a ≠ []) (hb : b ≠ [])
    (hi : interCard a b = i) (hu : unionCard a b = u) (hu0 : u ≠ 0) :
    jaccard a b = (i : ℚ) / (u : ℚ) := by
  unfold jaccard
  rw [if_neg (by simp [ha, hb]), hi, hu, if_neg hu0]

lemma jaccard_nil_right (a : List String) : jaccard a [] = 0 := by
  unfold jaccard; rw [if_pos (Or.inr rfl)]

lemma jaccard_nonneg (a b : List String) : 0 ≤ jaccard a b := by
  unfold jaccard
  split
  · exact le_refl 0
  · split
    · exact le_refl 0
    · positivity

lemma interCard_le_unionCard (a b : List String) :
    interCard a b ≤ unionCard a b := by
  unfold interCard unionCard
  calc (a.dedup.filter (fun x => x ∈ b.dedup)).length
      ≤ a.dedup.length := List.length_filter_le _ _
    _ ≤ a.dedup.length + (b.dedup.filter (fun x => x ∉ a.dedup)).length :=
        Nat.le_add_right _ _
    _ = (a.dedup ++ b.dedup.filter (fun x => x ∉ a.dedup)).length := by
        rw [List.length_append]

lemma jaccard_le_one (a b : List String) : jaccard a b ≤ 1 := by
  unfold jaccard
  split
  · exact zero_le_one
  · split
    · exact zero_le_one
    · rename_i h hu
      rw [div_le_one (by exact_mod_cast Nat.pos_of_ne_zero hu)]
      exact_mod_cast interCard_le_unionCard a b

lemma round2_ofRat (q : ℚ) : round2 ((q : ℝ)) = ((round (q * 100) : ℤ) : ℝ) / 100 := by
  unfold round2
  rw [show ((q : ℝ) * 100) = (((q * 100 : ℚ)) : ℝ) by push_cast; ring, Rat.round_cast]

lemma round2_bounds (z : ℝ) (h0 : 0 ≤ z) (h1 : z ≤ 100) :
    0 ≤ round2 z ∧ round2 z ≤ 100 := by
  unfold round2
  have hlo : (0 : ℤ) ≤ round (z * 100) := by
    rw [round_eq]
    exact Int.le_floor.mpr (by push_cast; linarith)
  have hhi : round (z * 100) ≤ 10000 := by
    rw [round_eq]
    have : ⌊z * 100 + 1 / 2⌋ < 10001 := Int.floor_lt.mpr (by push_cast; linarith)
    omega
  constructor
  · have : (0 : ℝ) ≤ ((round (z * 100) : ℤ) : ℝ) := by exact_mod_cast hlo
    linarith
  · have : ((round (z * 100) : ℤ) : ℝ) ≤ 10000 := by exact_mod_cast hhi
    linarith

lemma time_decay_none (now h : ℚ) : time_decay now none h = 1 := rfl

lemma time_decay_at_now (now h : ℚ) : time_decay now (some now) h = 1 := by
  unfold time_decay
  simp

lemma time_decay_of_nonpos (now p h : ℚ) (hle : now - p ≤ 0) :
    time_decay now (some p) h = 1 := by
  unfold time_decay
  simp [hle]

lemma time_decay_nonneg (now : ℚ) (pa : Option ℚ) (h : ℚ) :
    0 ≤ time_decay now pa h := by
  unfold time_decay
  match pa with
  | none => norm_num
  | some p =>
    dsimp only
    split
    · norm_num
    · exact le_trans (by norm_num) (le_max_left _ _)

lemma time_decay_ge (now : ℚ) (pa : Option ℚ) (h : ℚ) :
    (0.1 : ℝ) ≤ time_decay now pa h := by
  unfold time_decay
  match pa with
  | none => norm_num
  | some p =>
    dsimp only
    split
    · norm_num
    · exact le_max_left _ _

lemma time_decay_le_one (now : ℚ) (pa : Option ℚ) (h : ℚ) (hh : 0 < h) :
    time_decay now pa h ≤ 1 := by
  unfold time_decay
  match pa with
  | none => exact le_refl 1
  | some p =>
    dsimp only
    split
    · exact le_refl 1
    · rename_i hdt
      apply max_le (by norm_num)
      apply Real.rpow_le_one (by norm_num) (by norm_num)
      apply div_nonneg
      · push_cast
        have : (0 : ℚ) < now - p := lt_of_not_le hdt
        have := this.le
        exact_mod_cast this
      · have : (0 : ℝ) < (h : ℝ) := by exact_mod_cast hh
        nlinarith

lemma lowerList_nil : lowerList [] = [] := rfl

lemma lowerList_ne_nil (l : List String) (h : l ≠ []) : lowerList l ≠ [] := by
  unfold lowerList
  simp [List.dedup_eq_nil, List.map_eq_nil_iff, h]

lemma jaccard_dedup_right (a l : List String) :
    jaccard a l.dedup = jaccard a l := by
  unfold jaccard interCard unionCard
  simp only [List.dedup_idem, List.dedup_eq_nil]

lemma flatten_map_singleton (l : List String) :
    (l.map (fun t => [t])).flatten = l := by
  induction l with
  | nil => rfl
  | cons x xs ih => simp [ih]

lemma map_eq_self_of_fixed (l : List String) (f : String → String)
    (h : ∀ t ∈ l, f t = t) : l.map f = l := by
  rw [List.map_congr_left h]
  simp

lemma preRecencyScore_congr (j1 j2 : Job) (p : UserPreferences)
    (ht : j1.title = j2.title) (hd : j1.description = j2.description)
    (htg : j1.tags = j2.tags) (hl : j1.location = j2.location)
    (hr : j1.remote = j2.remote) (hsx : j1.salary_max = j2.salary_max) :
    preRecencyScore j1 p = preRecencyScore j2 p := by
  unfold preRecencyScore title_match tech_match include_match exclude_penalty
    loc_bonus salary_bonus jobTokensAll titleTokens descTokens tagsTokens
  rw [ht, hd, htg, hl, hr, hsx]

lemma compute_relevance_some_decay_one (now : ℚ) (job : Job)
    (p : UserPreferences) (q : ℚ) (hq : preRecencyScore job p = q)
    (hd : time_decay now job.posted_at DEFAULT_DECAY_DAYS = 1) :
    compute_relevance now job (some p)
      = ((round ((100 * max 0 (min 1 q)) * 100) : ℤ) : ℝ) / 100 := by
  show round2 (100 * max 0 (min 1 (((preRecencyScore job p : ℚ) : ℝ)
      * time_decay now job.posted_at DEFAULT_DECAY_DAYS))) = _
  rw [hq, hd, mul_one]
  rw [show ((100 : ℝ) * max 0 (min 1 ((q : ℚ) : ℝ)))
        = (((100 * max 0 (min 1 q) : ℚ)) : ℝ) by push_cast; ring]
  rw [round2_ofRat]

lemma compute_relevance_none_decay_one (now : ℚ) (job : Job)
    (hd : time_decay now job.posted_at DEFAULT_DECAY_DAYS = 1) :
    compute_relevance now job none = 35 := by
  show round2 (100 * min 1 ((0.35 : ℝ)
      * time_decay now job.posted_at DEFAULT_DECAY_DAYS)) = 35
  rw [hd, mul_one]
  rw [show ((100 : ℝ) * min 1 (0.35 : ℝ)) = (((35 : ℚ)) : ℝ) by
    norm_num [min_def]]
  rw [round2_ofRat]
  norm_num

lemma time_decay_elapsed (now e h : ℚ) :
    time_decay now (some (now - e)) h
      = if e ≤ 0 then 1
        else max 0.1 ((0.5 : ℝ) ^ ((e : ℝ) / ((h : ℝ) * 86400))) := by
  simp only [time_decay]
  rw [show now - (now - e) = e by ring]

lemma time_decay_antitone (now h : ℚ) (hh : 0 < h) (e1 e2 : ℚ) (he : e1 ≤ e2) :
    time_decay now (some (now - e2)) h ≤ time_decay now (some (now - e1)) h := by
  rw [time_decay_elapsed, time_decay_elapsed]
  have hH : (0 : ℝ) < (h : ℝ) * 86400 := by
    have : (0 : ℝ) < (h : ℝ) := by exact_mod_cast hh
    nlinarith
  by_cases h2 : e2 ≤ 0
  · rw [if_pos h2, if_pos (le_trans he h2)]
  · rw [if_neg h2]
    by_cases h1 : e1 ≤ 0
    · rw [if_pos h1]
      apply max_le (by norm_num)
      apply Real.rpow_le_one (by norm_num) (by norm_num)
      apply div_nonneg _ hH.le
      have : (0 : ℚ) < e2 := lt_of_not_le h2
      exact_mod_cast this.le
    · rw [if_neg h1]
      apply max_le_max (le_refl _)
      apply Real.rpow_le_rpow_of_exponent_ge (by norm_num) (by norm_num)
      exact (div_le_div_iff_of_pos_right hH).mpr (by exact_mod_cast he)

/-! ## Claim theorems -/

/-- C4: for every job posting and every preferences state (present or
absent), `compute_relevance` returns a value in the closed interval
[0, 100] that is a whole multiple of 1/100, i.e. a number rounded to two
decimal places. -/
theorem C4_score_bounds (now : ℚ) (job : Job) (prefs : Option UserPreferences) :
    0 ≤ compute_relevance now job prefs
    ∧ compute_relevance now job prefs ≤ 100
    ∧ ∃ k : ℤ, compute_relevance now job prefs = (k : ℝ) / 100 := by
  have hd0 : 0 ≤ time_decay now job.posted_at DEFAULT_DECAY_DAYS :=
    time_decay_nonneg now job.posted_at DEFAULT_DECAY_DAYS
  cases prefs with
  | none =>
    show 0 ≤ round2 (100 * min 1 ((0.35 : ℝ)
        * time_decay now job.posted_at DEFAULT_DECAY_DAYS)) ∧ _ ∧ _
    have hz0 : 0 ≤ (100 : ℝ) * min 1 ((0.35 : ℝ)
        * time_decay now job.posted_at DEFAULT_DECAY_DAYS) := by
      have : (0 : ℝ) ≤ min 1 ((0.35 : ℝ)
          * time_decay now job.posted_at DEFAULT_DECAY_DAYS) :=
        le_min (by norm_num) (by positivity)
      linarith
    have hz1 : (100 : ℝ) * min 1 ((0.35 : ℝ)
        * time_decay now job.posted_at DEFAULT_DECAY_DAYS) ≤ 100 := by
      have := min_le_left (1 : ℝ) ((0.35 : ℝ)
          * time_decay now job.posted_at DEFAULT_DECAY_DAYS)
      linarith
    obtain ⟨hA, hB⟩ := round2_bounds _ hz0 hz1
    exact ⟨hA, hB, ⟨round ((100 * min 1 ((0.35 : ℝ)
        * time_decay now job.posted_at DEFAULT_DECAY_DAYS)) * 100), rfl⟩⟩
  | some p =>
    show 0 ≤ round2 (100 * max 0 (min 1 (((preRecencyScore job p : ℚ) : ℝ)
        * time_decay now job.posted_at DEFAULT_DECAY_DAYS))) ∧ _ ∧ _
    have hz0 : 0 ≤ (100 : ℝ) * max 0 (min 1 (((preRecencyScore job p : ℚ) : ℝ)
        * time_decay now job.posted_at DEFAULT_DECAY_DAYS)) := by
      have := le_max_left (0 : ℝ) (min 1 (((preRecencyScore job p : ℚ) : ℝ)
          * time_decay now job.posted_at DEFAULT_DECAY_DAYS))
      linarith
    have hz1 : (100 : ℝ) * max 0 (min 1 (((preRecencyScore job p : ℚ) : ℝ)
        * time_decay now job.posted_at DEFAULT_DECAY_DAYS)) ≤ 100 := by
      have : max 0 (min 1 (((preRecencyScore job p : ℚ) : ℝ)
          * time_decay now job.posted_at DEFAULT_DECAY_DAYS)) ≤ 1 :=
        max_le (by norm_num) (min_le_left _ _)
      linarith
    obtain ⟨hA, hB⟩ := round2_bounds _ hz0 hz1
    exact ⟨hA, hB, ⟨round ((100 * max 0 (min 1 (((preRecencyScore job p : ℚ) : ℝ)
        * time_decay now job.posted_at DEFAULT_DECAY_DAYS))) * 100), rfl⟩⟩

/-- C5: scoring a job whose posting timestamp equals the current instant
with an absent preferences record returns exactly 35.00 (the baseline
`100 × min(1, 0.35 × recency)` with recency 1); absence of preferences is
handled totally by this path. -/
theorem C5_no_prefs_baseline (now : ℚ) (job : Job)
    (h : job.posted_at = some now) :
    compute_relevance now job none = 35 := by
  apply compute_relevance_none_decay_one
  rw [h]
  exact time_decay_at_now now DEFAULT_DECAY_DAYS

/-- Job used to witness C5. -/
def jobW5 : Job :=
  ⟨none, none, none, none, none, none, none, none, none, none, some 0⟩

/-- Witness for C5 at a concrete job posted at the current instant. -/
theorem C5_witness :
    jobW5.posted_at = some 0 ∧ compute_relevance 0 jobW5 none = 35 :=
  ⟨rfl, C5_no_prefs_baseline 0 jobW5 rfl⟩

/-- C6: for a fixed positive half-life, the recency multiplier of
`time_decay` is non-increasing in the elapsed time `now - posted`, equals 1
exactly when the timestamp is absent or the elapsed time is non-positive,
and always lies in [0.1, 1]. -/
theorem C6_time_decay_props (h : ℚ) (hh : 0 < h) (now : ℚ) :
    (∀ e1 e2 : ℚ, e1 ≤ e2 →
      time_decay now (some (now - e2)) h ≤ time_decay now (some (now - e1)) h)
    ∧ time_decay now none h = 1
    ∧ (∀ e : ℚ, e ≤ 0 → time_decay now (some (now - e)) h = 1)
    ∧ (∀ pa : Option ℚ,
        (0.1 : ℝ) ≤ time_decay now pa h ∧ time_decay now pa h ≤ 1) := by
  refine ⟨time_decay_antitone now h hh, time_decay_none now h, ?_, ?_⟩
  · intro e he
    rw [time_decay_elapsed, if_pos he]
  · intro pa
    exact ⟨time_decay_ge now pa h, time_decay_le_one now pa h hh⟩

/-- Witness for C6 at the default half-life of 30 days. -/
theorem C6_witness : (0 : ℚ) < 30 ∧ time_decay 0 none 30 = 1 :=
  ⟨by decide, (C6_time_decay_props 30 (by decide) 0).2.1⟩

/-- C7: with a non-empty excluded-keyword list the exclusion multiplier
equals `1 - min(0.9, jaccard(combined job tokens, excluded keywords))` and
is therefore never below 0.1: even total overlap suppresses at most 90% of
the pre-penalty score.  (The excluded keywords are, as in the source, the
lowercased preference entries.) -/
theorem C7_exclusion_cap (job : Job) (p : UserPreferences)
    (h : p.keywords_exclude.getD [] ≠ []) :
    exclude_penalty job p
      = 1 - min 0.9 (jaccard (jobTokensAll job)
          (lowerList (p.keywords_exclude.getD [])))
    ∧ (0.1 : ℚ) ≤ exclude_penalty job p := by
  have hne := lowerList_ne_nil _ h
  refine ⟨by rw [exclude_penalty, excludePenalty, if_neg hne], ?_⟩
  rw [exclude_penalty, excludePenalty, if_neg hne]
  have h1 : min (0.9 : ℚ) (jaccard (jobTokensAll job)
      (lowerList (p.keywords_exclude.getD []))) ≤ 0.9 := min_le_left _ _
  have h09 : (0.9 : ℚ) = 9 / 10 := by norm_num
  rw [h09] at h1
  rw [show (0.1 : ℚ) = 1 / 10 by norm_num]
  linarith

/-- Job used to witness C7. -/
def jobW7 : Job :=
  ⟨some ("Intern"), none, none, none, none, none, none, none, none, none, none⟩

/-- Preferences used to witness C7. -/
def prefsW7 : UserPreferences :=
  ⟨none, some ["intern"], none, none, none, none, none⟩

/-- Witness for C7 at a concrete job and excluded-keyword list. -/
theorem C7_witness :
    prefsW7.keywords_exclude.getD [] ≠ []
    ∧ (0.1 : ℚ) ≤ exclude_penalty jobW7 prefsW7 :=
  ⟨by decide, (C7_exclusion_cap jobW7 prefsW7 (by decide)).2⟩

/-- C9: two job postings agreeing on title, description, tags, location,
remote flag, salary_min, salary_max and posted_at receive the same
relevance score under every preferences state — the URL and source label
(and any other field outside this list) never influence the score. -/
theorem C9_url_source_noninterference (now : ℚ) (j1 j2 : Job)
    (prefs : Option UserPreferences)
    (ht : j1.title = j2.title) (hd : j1.description = j2.description)
    (htg : j1.tags = j2.tags) (hl : j1.location = j2.location)
    (hr : j1.remote = j2.remote) (hsm : j1.salary_min = j2.salary_min)
    (hsx : j1.salary_max = j2.salary_max) (hp : j1.posted_at = j2.posted_at) :
    compute_relevance now j1 prefs = compute_relevance now j2 prefs := by
  cases prefs with
  | none =>
    show round2 (100 * min 1 ((0.35 : ℝ)
        * time_decay now j1.posted_at DEFAULT_DECAY_DAYS)) = _
    rw [hp]
    rfl
  | some p =>
    show round2 (100 * max 0 (min 1 (((preRecencyScore j1 p : ℚ) : ℝ)
        * time_decay now j1.posted_at DEFAULT_DECAY_DAYS))) = _
    rw [hp, preRecencyScore_congr j1 j2 p ht hd htg hl hr hsx]
    rfl

/-- First job used to witness C9. -/
def jobW9a : Job :=
  ⟨some ("Data Engineer"), some ("Acme"), some ("python sql"), some ("NYC"),
   some true, some ("https://a.example/jobs/1"), some ("linkedin"),
   some 100000, some 150000, some ["python"], some 5⟩

/-- Second job used to witness C9: same scoring-relevant fields, different
URL and source label. -/
def jobW9b : Job :=
  ⟨some ("Data Engineer"), some ("Acme"), some ("python sql"), some ("NYC"),
   some true, some ("https://b.example/other/2"), some ("indeed"),
   some 100000, some 150000, some ["python"], some 5⟩

/-- Witness for C9: the two concrete jobs differ in URL and source yet get
identical scores. -/
theorem C9_witness :
    jobW9a.url ≠ jobW9b.url ∧ jobW9a.source ≠ jobW9b.source
    ∧ compute_relevance 7 jobW9a none = compute_relevance 7 jobW9b none :=
  ⟨by decide, by decide,
    C9_url_source_noninterference 7 jobW9a jobW9b none
      rfl rfl rfl rfl rfl rfl rfl rfl⟩

/-- C10: a present-but-empty preferences record takes the preference path:
the score is `round(100 × min(1, 0.10 × recency))` — 10.00 for a job posted
at the current instant — strictly below the 35.00 of the absent-preferences
baseline. -/
theorem C10_empty_prefs_path (now : ℚ) (job : Job) (p : UserPreferences)
    (h1 : p.job_titles.getD [] = []) (h2 : p.tech_stack.getD [] = [])
    (h3 : p.keywords_include.getD [] = [])
    (h4 : p.keywords_exclude.getD [] = [])
    (h5 : p.locations.getD [] = []) (h6 : p.remote_only = none)
    (h7 : p.min_salary = none) :
    compute_relevance now job (some p)
      = round2 (100 * min 1 ((0.1 : ℝ)
          * time_decay now job.posted_at DEFAULT_DECAY_DAYS))
    ∧ (job.posted_at = some now →
        compute_relevance now job (some p) = 10
        ∧ compute_relevance now job none = 35
        ∧ compute_relevance now job (some p) < compute_relevance now job none) := by
  have hpre : preRecencyScore job p = 1 / 10 := by
    have hT : title_match job p = 0 := by
      rw [title_match, h1, lowerList_nil]
      exact jaccard_nil_right _
    have hTech : tech_match job p = 0 := by
      rw [tech_match, h2, lowerList_nil]
      exact jaccard_nil_right _
    have hInc : include_match job p = 0 := by
      rw [include_match, h3, lowerList_nil]
      exact jaccard_nil_right _
    have hLoc : loc_bonus job p = 0 := by
      rw [loc_bonus, h5, h6]
      simp [lowerList_nil]
    have hSal : salary_bonus job p = 0 := by
      rw [salary_bonus, h7]
      simp [truthyInt]
    have hEx : exclude_penalty job p = 1 := by
      rw [exclude_penalty, h4, lowerList_nil, excludePenalty]
      simp
    rw [preRecencyScore, hT, hTech, hInc, hLoc, hSal, hEx]
    norm_num
  have hd0 : 0 ≤ time_decay now job.posted_at DEFAULT_DECAY_DAYS :=
    time_decay_nonneg now job.posted_at DEFAULT_DECAY_DAYS
  constructor
  · show round2 (100 * max 0 (min 1 (((preRecencyScore job p : ℚ) : ℝ)
        * time_decay now job.posted_at DEFAULT_DECAY_DAYS))) = _
    rw [hpre]
    have hcast : (((1 / 10 : ℚ)) : ℝ) = (0.1 : ℝ) := by norm_num
    rw [hcast]
    have hm : 0 ≤ min 1 ((0.1 : ℝ)
        * time_decay now job.posted_at DEFAULT_DECAY_DAYS) :=
      le_min (by norm_num) (by positivity)
    rw [max_eq_right hm]
  · intro hnow
    have hd1 : time_decay now job.posted_at DEFAULT_DECAY_DAYS = 1 := by
      rw [hnow]
      exact time_decay_at_now now DEFAULT_DECAY_DAYS
    have ha : compute_relevance now job (some p) = 10 := by
      rw [compute_relevance_some_decay_one now job p (1 / 10) hpre hd1]
      norm_num [min_def, max_def]
    have hb : compute_relevance now job none = 35 :=
      compute_relevance_none_decay_one now job hd1
    exact ⟨ha, hb, by rw [ha, hb]; norm_num⟩

/-- Empty preference record used to witness C10. -/
def prefsW10 : UserPreferences :=
  ⟨some [], some [], some [], some [], some [], none, none⟩

/-- Job used to witness C10, posted at the current instant. -/
def jobW10 : Job :=
  ⟨some ("Backend Engineer"), none, none, none, none, none, none, none, none,
   none, some 0⟩

/-- Witness for C10 at a concrete empty preference record. -/
theorem C10_witness :
    prefsW10.job_titles.getD [] = [] ∧ prefsW10.remote_only = none
    ∧ jobW10.posted_at = some 0
    ∧ compute_relevance 0 jobW10 (some prefsW10) = 10 :=
  ⟨rfl, rfl, rfl,
    ((C10_empty_prefs_path 0 jobW10 prefsW10 rfl rfl rfl rfl rfl rfl rfl).2
      rfl).1⟩

/-- Job of the spec's C3 scenario, posted at the ambient instant `now`. -/
def jobC3 (now : ℚ) : Job :=
  ⟨some ("Software Engineer Intern"), none,
   some ("remote internship opportunity"), none, some true, none, none, none,
   none, none, some now⟩

/-- Preferences of the spec's C3 scenario. -/
def prefsC3 : UserPreferences :=
  ⟨some [], some [], some [], some ["software engineer"], some [], some true,
   none⟩

lemma jobC3_title_match (now : ℚ) : title_match (jobC3 now) prefsC3 = 0 := by
  have ht : titleTokens (jobC3 now) = ["software", "engineer", "intern"] := rfl
  rw [title_match, ht,
    jaccard_eq _ _ 0 4 (by decide) (by decide) (by decide) (by decide)
      (by decide)]
  norm_num

lemma jobC3_pre_score (now : ℚ) :
    preRecencyScore (jobC3 now) prefsC3 = 11 / 100 := by
  have h1 := jobC3_title_match now
  have h2 : tech_match (jobC3 now) prefsC3 = 0 := by
    rw [tech_match]
    exact jaccard_nil_right _
  have h3 : include_match (jobC3 now) prefsC3 = 0 := by
    rw [include_match]
    exact jaccard_nil_right _
  have h4 : loc_bonus (jobC3 now) prefsC3 = 1 / 10 := by
    rw [loc_bonus]
    simp [prefsC3, jobC3, lowerList]
    norm_num
  have h5 : salary_bonus (jobC3 now) prefsC3 = 0 := by
    rw [salary_bonus]
    simp [prefsC3, jobC3, truthyInt]
  have h6 : exclude_penalty (jobC3 now) prefsC3 = 1 := by
    rw [exclude_penalty, excludePenalty]
    simp [prefsC3, lowerList]
  rw [preRecencyScore, h1, h2, h3, h4, h5, h6]
  norm_num

lemma jobC3_decay_one (now : ℚ) :
    time_decay now (jobC3 now).posted_at DEFAULT_DECAY_DAYS = 1 :=
  time_decay_at_now now DEFAULT_DECAY_DAYS

lemma jobC3_score (now : ℚ) :
    compute_relevance now (jobC3 now) (some prefsC3) = 11 := by
  rw [compute_relevance_some_decay_one now (jobC3 now) prefsC3 (11 / 100)
    (jobC3_pre_score now) (jobC3_decay_one now)]
  norm_num [min_def, max_def]

/-- C3 (counterexample): on the spec's scenario the code gives
`title_match = 0` (the multi-word preferred title is not tokenized) and a
final score of 11.00, so neither `title_match > 0` nor `score > 35.00`
holds. -/
theorem C3_counterexample :
    ¬(0 < title_match (jobC3 0) prefsC3)
    ∧ ¬((35 : ℝ) < compute_relevance 0 (jobC3 0) (some prefsC3)) := by
  constructor
  · rw [jobC3_title_match 0]
    norm_num
  · rw [jobC3_score 0]
    norm_num

/-- C3 (amended): on the scenario job and preferences the code yields
`loc_bonus = +0.1`, recency multiplier 1, exclusion penalty 1, but
`title_match = 0` — the preferred title "software engineer" is compared as
one lowercased string, not tokenized — and the final score is exactly
11.00, strictly below the no-preference baseline of 35.00. -/
theorem C3_scenario_actual (now : ℚ) :
    title_match (jobC3 now) prefsC3 = 0
    ∧ loc_bonus (jobC3 now) prefsC3 = 0.1
    ∧ time_decay now (jobC3 now).posted_at DEFAULT_DECAY_DAYS = 1
    ∧ exclude_penalty (jobC3 now) prefsC3 = 1
    ∧ compute_relevance now (jobC3 now) (some prefsC3) = 11
    ∧ compute_relevance now (jobC3 now) (some prefsC3) < 35 := by
  refine ⟨jobC3_title_match now, ?_, jobC3_decay_one now, ?_, jobC3_score now, ?_⟩
  · rw [loc_bonus]
    simp [prefsC3, jobC3, lowerList]
  · rw [exclude_penalty, excludePenalty]
    simp [prefsC3, lowerList]
  · rw [jobC3_score now]
    norm_num

/-- Modelled from the claim's wording for C1: a preference list "passed
through the same tokenizer as job text before the set-overlap comparison" —
each preference entry is tokenized and the word tokens are concatenated. -/
def tokensOfPrefList (l : List String) : List String :=
  (l.map tokenize).flatten

/-- Job used to refute C1 as stated. -/
def jobC1 : Job :=
  ⟨some ("Software Engineer"), none, none, none, none, none, none, none, none,
   none, none⟩

/-- Preferences with a multi-word preferred title, used to refute C1. -/
def prefsC1 : UserPreferences :=
  ⟨none, none, none, some ["software engineer"], none, none, none⟩

lemma jobC1_title_match : title_match jobC1 prefsC1 = 0 := by
  rw [title_match,
    jaccard_eq _ _ 0 3 (by decide) (by decide) (by decide) (by decide)
      (by decide)]
  norm_num

/-- C1 (counterexample): the code compares job tokens against the
lowercased preference strings taken whole, not against their tokens: for a
job titled "Software Engineer" and the preferred title
"software engineer", the code's `title_match` is 0 while the claimed
tokenized comparison would give 1. -/
theorem C1_counterexample :
    title_match jobC1 prefsC1 = 0
    ∧ jaccard (titleTokens jobC1)
        (tokensOfPrefList (prefsC1.job_titles.getD [])) = 1
    ∧ title_match jobC1 prefsC1
        ≠ jaccard (titleTokens jobC1)
            (tokensOfPrefList (prefsC1.job_titles.getD [])) := by
  have h2 : jaccard (titleTokens jobC1)
      (tokensOfPrefList (prefsC1.job_titles.getD [])) = 1 := by
    rw [jaccard_eq _ _ 2 2 (by decide) (by decide) (by decide) (by decide)
      (by decide)]
    norm_num
  exact ⟨jobC1_title_match, h2, by rw [jobC1_title_match, h2]; norm_num⟩

lemma jaccard_lowerList_eq_tokens (a l : List String)
    (h : ∀ t ∈ l, strLower t = t ∧ tokenize t = [t]) :
    jaccard a (lowerList l) = jaccard a (tokensOfPrefList l) := by
  have hmap : l.map strLower = l :=
    map_eq_self_of_fixed l strLower (fun t ht => (h t ht).1)
  have htok : tokensOfPrefList l = l := by
    unfold tokensOfPrefList
    rw [List.map_congr_left (fun t ht => (h t ht).2)]
    exact flatten_map_singleton l
  rw [htok]
  unfold lowerList
  rw [hmap]
  exact jaccard_dedup_right a l

/-- C1 (amended): the scorer compares job tokens against the lowercased
whole preference entries, not their tokens; the claimed tokenized reading
agrees with the code exactly when every preference entry is already a
single normalized token (lowercase, alphanumeric, not a stop word), and a
multi-word entry such as "software engineer" contributes one composite
element that matches no single-word token. -/
theorem C1_components_single_token (job : Job) (p : UserPreferences)
    (h1 : ∀ t ∈ p.job_titles.getD [], strLower t = t ∧ tokenize t = [t])
    (h2 : ∀ t ∈ p.tech_stack.getD [], strLower t = t ∧ tokenize t = [t])
    (h3 : ∀ t ∈ p.keywords_include.getD [],
      strLower t = t ∧ tokenize t = [t]) :
    title_match job p
      = jaccard (titleTokens job) (tokensOfPrefList (p.job_titles.getD []))
    ∧ tech_match job p
      = jaccard (jobTokensAll job) (tokensOfPrefList (p.tech_stack.getD []))
    ∧ include_match job p
      = jaccard (jobTokensAll job)
          (tokensOfPrefList (p.keywords_include.getD [])) :=
  ⟨jaccard_lowerList_eq_tokens _ _ h1, jaccard_lowerList_eq_tokens _ _ h2,
    jaccard_lowerList_eq_tokens _ _ h3⟩

/-- Job used to witness the amended C1. -/
def jobW1 : Job :=
  ⟨some ("Python Developer"), none, some ("build django services"), none,
   none, none, none, none, none, none, none⟩

/-- Single-word preferences used to witness the amended C1. -/
def prefsW1 : UserPreferences :=
  ⟨some ["django"], none, some ["python"], some ["developer"], none, none,
   none⟩

/-- Witness for the amended C1 at single-token preference entries. -/
theorem C1_witness :
    (∀ t ∈ prefsW1.job_titles.getD [], strLower t = t ∧ tokenize t = [t])
    ∧ title_match jobW1 prefsW1
        = jaccard (titleTokens jobW1)
            (tokensOfPrefList (prefsW1.job_titles.getD [])) :=
  ⟨by decide,
    (C1_components_single_token jobW1 prefsW1 (by decide) (by decide)
      (by decide)).1⟩

/-- Preferences used to refute C2: one preferred title plus remote-only. -/
def prefsC2 : UserPreferences :=
  ⟨none, none, none, some ["python"], none, some true, none⟩

/-- Non-remote job with a perfect title hit, excluded by the pre-filter. -/
def jobC2A : Job :=
  ⟨some ("python"), none, none, none, some false, none, none, none, none,
   none, none⟩

/-- Remote job with a weaker title hit, accepted by the pre-filter. -/
def jobC2B : Job :=
  ⟨some ("python developer"), none, none, none, some true, none, none, none,
   none, none, none⟩

lemma jobC2A_score : compute_relevance 0 jobC2A (some prefsC2) = 53 := by
  have hpre : preRecencyScore jobC2A prefsC2 = 53 / 100 := by
    have h1 : title_match jobC2A prefsC2 = 1 := by
      rw [title_match,
        jaccard_eq _ _ 1 1 (by decide) (by decide) (by decide) (by decide)
          (by decide)]
      norm_num
    have h2 : tech_match jobC2A prefsC2 = 0 := by
      rw [tech_match]
      exact jaccard_nil_right _
    have h3 : include_match jobC2A prefsC2 = 0 := by
      rw [include_match]
      exact jaccard_nil_right _
    have h4 : loc_bonus jobC2A prefsC2 = -(1 / 5) := by
      rw [loc_bonus]
      simp [prefsC2, jobC2A, lowerList]
      norm_num
    have h5 : salary_bonus jobC2A prefsC2 = 0 := by
      rw [salary_bonus]
      simp [prefsC2, jobC2A, truthyInt]
    have h6 : exclude_penalty jobC2A prefsC2 = 1 := by
      rw [exclude_penalty, excludePenalty]
      simp [prefsC2, lowerList]
    rw [preRecencyScore, h1, h2, h3, h4, h5, h6]
    norm_num
  rw [compute_relevance_some_decay_one 0 jobC2A prefsC2 (53 / 100) hpre
    (time_decay_none 0 DEFAULT_DECAY_DAYS)]
  norm_num [min_def, max_def]

lemma jobC2B_score : compute_relevance 0 jobC2B (some prefsC2) = 33.5 := by
  have hpre : preRecencyScore jobC2B prefsC2 = 67 / 200 := by
    have h1 : title_match jobC2B prefsC2 = 1 / 2 := by
      rw [title_match,
        jaccard_eq _ _ 1 2 (by decide) (by decide) (by decide) (by decide)
          (by decide)]
      norm_num
    have h2 : tech_match jobC2B prefsC2 = 0 := by
      rw [tech_match]
      exact jaccard_nil_right _
    have h3 : include_match jobC2B prefsC2 = 0 := by
      rw [include_match]
      exact jaccard_nil_right _
    have h4 : loc_bonus jobC2B prefsC2 = 1 / 10 := by
      rw [loc_bonus]
      simp [prefsC2, jobC2B, lowerList]
      norm_num
    have h5 : salary_bonus jobC2B prefsC2 = 0 := by
      rw [salary_bonus]
      simp [prefsC2, jobC2B, truthyInt]
    have h6 : exclude_penalty jobC2B prefsC2 = 1 := by
      rw [exclude_penalty, excludePenalty]
      simp [prefsC2, lowerList]
    rw [preRecencyScore, h1, h2, h3, h4, h5, h6]
    norm_num
  rw [compute_relevance_some_decay_one 0 jobC2B prefsC2 (67 / 200) hpre
    (time_decay_none 0 DEFAULT_DECAY_DAYS)]
  norm_num [min_def, max_def]

/-- C2 (counterexample): the coarse pre-filter is not recall-preserving.
With preferences `job_titles = ["python"], remote_only = true` the
pre-filter rejects a non-remote job scoring 53.00 while accepting a remote
job scoring 33.50, so a job the scorer ranks strictly above every accepted
job is excluded. -/
theorem C2_counterexample :
    prefilter (some prefsC2) jobC2A = false
    ∧ prefilter (some prefsC2) jobC2B = true
    ∧ compute_relevance 0 jobC2B (some prefsC2)
        < compute_relevance 0 jobC2A (some prefsC2) := by
  refine ⟨rfl, rfl, ?_⟩
  rw [jobC2A_score, jobC2B_score]
  norm_num

/-- C2 (amended): the pre-filter is guaranteed permissive only when the
preference record installs no predicate: with no preference record, or
with a record carrying no preferred titles, no included keywords,
`remote_only` not true, no locations and no truthy minimum salary, every
job is accepted.  In general it is not recall-preserving (see the
counterexample). -/
theorem C2_prefilter_trivially_permissive :
    (∀ job : Job, prefilter none job = true)
    ∧ ∀ (p : UserPreferences) (job : Job),
        p.job_titles.getD [] = [] → p.keywords_include.getD [] = [] →
        p.remote_only ≠ some true → p.locations.getD [] = [] →
        truthyInt p.min_salary = false →
        prefilter (some p) job = true := by
  refine ⟨fun job => rfl, ?_⟩
  intro p job h1 h2 h3 h4 h5
  simp only [prefilter]
  rw [h1, h2, h4]
  simp [h3, h5]

/-- Preferences with no effective predicate, used to witness the amended
C2 (zero minimum salary is falsy, remote_only false is not an identity
match with True). -/
def prefsW2 : UserPreferences :=
  ⟨some [], some [], some [], some [], some [], some false, some 0⟩

/-- Job used to witness the amended C2. -/
def jobW2 : Job :=
  ⟨some ("Kernel Engineer"), none, none, none, some false, none, none, none,
   none, none, none⟩

/-- Witness for the amended C2: with a predicate-free preference record the
pre-filter accepts the job. -/
theorem C2_witness :
    prefsW2.job_titles.getD [] = [] ∧ truthyInt prefsW2.min_salary = false
    ∧ prefilter (some prefsW2) jobW2 = true :=
  ⟨rfl, rfl,
    C2_prefilter_trivially_permissive.2 prefsW2 jobW2 rfl rfl (by decide) rfl
      rfl⟩

/-- Modelled from the claim's wording for C8: the salary term adds 0.1 when
the job's salary-max meets the minimum-salary preference and subtracts 0.15
otherwise, whenever both values exist — including when either value is 0 —
and stays 0 when either is absent. -/
def salaryBonusClaim (job : Job) (p : UserPreferences) : ℚ :=
  match p.min_salary, job.salary_max with
  | some m, some s => if m ≤ s then (0.1 : ℚ) else -0.15
  | _, _ => 0

/-- The salary term as the amended C8 states it: a zero minimum-salary
preference or a zero salary-max behaves as if the value were absent
(Python truthiness), and only nonzero pairs produce the ±bonus. -/
def salaryBonusAmended (job : Job) (p : UserPreferences) : ℚ :=
  match p.min_salary, job.salary_max with
  | some m, some s =>
    if m ≠ 0 ∧ s ≠ 0 then (if m ≤ s then (0.1 : ℚ) else -0.15) else 0
  | _, _ => 0

/-- Job with a present salary-max, used to refute C8. -/
def jobC8 : Job :=
  ⟨some ("Analyst"), none, none, none, none, none, none, none, some 50000,
   none, none⟩

/-- Preferences with a present but zero minimum salary, used to refute
C8. -/
def prefsC8 : UserPreferences :=
  ⟨none, none, none, none, none, none, some 0⟩

/-- C8 (counterexample): with `min_salary = 0` present and
`salary_max = 50000` present, the claim's formula awards +0.1 but the code
leaves the salary term at 0 because Python truthiness treats the zero
minimum as absent. -/
theorem C8_counterexample :
    salary_bonus jobC8 prefsC8 = 0
    ∧ salaryBonusClaim jobC8 prefsC8 = 0.1
    ∧ salary_bonus jobC8 prefsC8 ≠ salaryBonusClaim jobC8 prefsC8 := by
  have ha : salary_bonus jobC8 prefsC8 = 0 := by
    rw [salary_bonus]
    simp [prefsC8, jobC8, truthyInt]
  have hb : salaryBonusClaim jobC8 prefsC8 = 0.1 := by
    simp only [salaryBonusClaim, prefsC8, jobC8]
    norm_num
  exact ⟨ha, hb, by rw [ha, hb]; norm_num⟩

/-- C8 (amended): the salary term starts at 0 and is modified only when the
minimum-salary preference and the job's salary-max both exist and are
nonzero — it then adds 0.1 when salary-max meets the minimum and subtracts
0.15 otherwise; an absent or zero value on either side leaves the term
at 0. -/
theorem C8_salary_bonus_truthy (job : Job) (p : UserPreferences) :
    salary_bonus job p = salaryBonusAmended job p := by
  cases hm : p.min_salary with
  | none => simp [salary_bonus, salaryBonusAmended, truthyInt, hm]
  | some m =>
    cases hs : job.salary_max with
    | none => simp [salary_bonus, salaryBonusAmended, truthyInt, hm, hs]
    | some s =>
      by_cases hm0 : m = 0
      · simp [salary_bonus, salaryBonusAmended, truthyInt, hm, hs, hm0]
      · by_cases hs0 : s = 0
        · simp [salary_bonus, salaryBonusAmended, truthyInt, hm, hs, hm0, hs0]
        · by_cases hms : m ≤ s
          · simp [salary_bonus, salaryBonusAmended, truthyInt, hm, hs, hm0,
              hs0, hms]
          · simp [salary_bonus, salaryBonusAmended, truthyInt, hm, hs, hm0,
              hs0, hms]
